import Mathlib

/-!
Verification development for the pumpbot launch scripts.

The JavaScript sources under src/ are shallowly embedded below:
pure functions become Lean functions, floating-point SOL amounts are
modelled with exact rationals, JavaScript strings are modelled as Lean
strings (the addresses handled by the scripts are ASCII base58 text, on
which the character-wise toUpper and toLower agree with the JavaScript
methods), and each effectful workflow becomes a total function from an
environment describing the outcomes of its external calls to the list of
observable events it performs together with the result envelope it emits.
-/

set_option maxHeartbeats 1000000

/-- Character-wise uppercase map: the model of the JavaScript
toUpperCase method, with which it agrees on ASCII (base58) text. -/
def jsToUpper (s : String) : String :=
  String.mk (s.data.map Char.toUpper)

/-- Character-wise lowercase map: the model of the JavaScript
toLowerCase method, with which it agrees on ASCII (base58) text. -/
def jsToLower (s : String) : String :=
  String.mk (s.data.map Char.toLower)

/-- Suffix test: the model of the JavaScript endsWith method, true
exactly when the character sequence of the pattern is a suffix of the
character sequence of the string. -/
def jsEndsWith (s pat : String) : Bool :=
  List.isSuffixOf pat.data s.data

/-- JavaScript values as they may reach the address validators: the
validators guard against null, undefined and non-string inputs before
touching any string operation, so the embedding takes a sum type. -/
inductive JsVal where
  | jsNull
  | jsUndefined
  | jsBool (b : Bool)
  | jsNum (q : ℚ)
  | jsStr (s : String)
deriving DecidableEq

/-- validateLockAddress from src/fixes_address_validation.js lines 2-43.
The source first rejects falsy or non-string input (for a string the only
falsy value is the empty string), then rejects lengths outside 32..44, and
only then uppercases the address and checks the LOCK suffix followed by
the LCK suffix. Console logging is I/O-free of the returned value and is
not modelled. -/
def validateLockAddress : JsVal → Bool
  | JsVal.jsStr address =>
      if address = "" then false
      else if address.length < 32 ∨ address.length > 44 then false
      else
        let addressUpper := jsToUpper address
        if jsEndsWith addressUpper "LOCK" then true
        else if jsEndsWith addressUpper "LCK" then true
        else false
  | _ => false

/-- validateLockAddressFixed from src/create_real_launchlab_token.js lines
184-195: one combined guard for falsy, non-string and out-of-range length
input, then the uppercased suffix test for LOCK or LCK. -/
def validateLockAddressFixed : JsVal → Bool
  | JsVal.jsStr address =>
      if address = "" ∨ address.length < 32 ∨ address.length > 44 then false
      else
        let upper := jsToUpper address
        jsEndsWith upper "LOCK" || jsEndsWith upper "LCK"
  | _ => false

/-- Launch intent fields used by the curve derivation (src/create_launchlab_token.js
lines 97-100 and src/create_raydium_token.js lines 497-503). -/
structure LaunchParameters where
  totalSupply : ℕ
  sellPercentage : ℕ
deriving DecidableEq

/-- Derived curve configuration. -/
structure CurveConfig where
  sellAmount : ℕ
  fundingTarget : ℕ
  totalLockedAmount : ℕ
  cliffPeriod : ℕ
  unlockPeriod : ℕ
deriving DecidableEq

/-- Curve derivation from src/create_launchlab_token.js lines 97-100:
sellAmount is computed with BN multiplication followed by BN division,
which is exact integer arithmetic with truncating (floor) division, the
funding target is the constant 85000000000 lamports (85 SOL), and the
lock, cliff and unlock periods default to zero (src/create_raydium_token.js
lines 520-522). -/
def deriveCurve (p : LaunchParameters) : CurveConfig :=
  { sellAmount := p.totalSupply * p.sellPercentage / 100
    fundingTarget := 85000000000
    totalLockedAmount := 0
    cliffPeriod := 0
    unlockPeriod := 0 }

/-- Insufficient-funds data carried by the balance guard of
src/create_raydium_token.js lines 478-485: the thrown message interpolates
both the required and the current SOL amount. -/
structure InsufficientBoth where
  required : ℚ
  current : ℚ
deriving DecidableEq

/-- Insufficient-funds data carried by the balance guard of
src/create_real_launchlab_token.js lines 103-108: the thrown message
interpolates only the required SOL amount. -/
structure InsufficientRequiredOnly where
  required : ℚ
deriving DecidableEq

/-- Balance guard from src/create_raydium_token.js lines 477-485:
minRequired is (params.initialBuyAmount or 0) + 0.005 and the check fails
exactly when the balance in SOL is strictly below it, throwing a message
that carries both the required and the current amount. -/
def raydiumBalanceGuard (initialBuyAmount balanceSOL : ℚ) :
    Except InsufficientBoth Unit :=
  let minRequired : ℚ := initialBuyAmount + 5 / 1000
  if balanceSOL < minRequired then
    Except.error { required := minRequired, current := balanceSOL }
  else Except.ok ()

/-- Balance guard from src/create_real_launchlab_token.js lines 103-108:
requiredBalance is 0.01 + (params.initialBuyAmount or 0) and the check
fails exactly when the balance in SOL is strictly below it; the thrown
message interpolates only requiredBalance. -/
def realBalanceGuard (initialBuyAmount balanceSOL : ℚ) :
    Except InsufficientRequiredOnly Unit :=
  let requiredBalance : ℚ := 1 / 100 + initialBuyAmount
  if balanceSOL < requiredBalance then
    Except.error { required := requiredBalance }
  else Except.ok ()

/-- Outcome of the lightweight liveness probe (getVersion call with a
latency measurement) issued to one RPC endpoint candidate by config.js:
none models a probe whose promise resolved to null (the catch branch). -/
structure ProbeOutcome where
  url : String
  latency : Option ℕ
deriving DecidableEq

/-- A successful probe as kept by config.js: the endpoint together with
its measured latency in milliseconds. -/
structure LiveConn where
  url : String
  latency : ℕ
deriving DecidableEq

/-- The validConnections list of config.js lines 330-334: keep the
fulfilled non-null probe results, in candidate order. -/
def validConnections (probes : List ProbeOutcome) : List LiveConn :=
  probes.filterMap (fun p => p.latency.map (fun l => { url := p.url, latency := l }))

/-- Stable insertion step realising the JavaScript sort with comparator
(a, b) => a.latency - b.latency: Array.prototype.sort is stable, so an
element is placed after every element of strictly smaller latency and
before the first element of greater or equal latency. -/
def insertByLatency (x : LiveConn) : List LiveConn → List LiveConn
  | [] => [x]
  | y :: ys =>
      if y.latency < x.latency then y :: insertByLatency x ys
      else x :: y :: ys

/-- The stable sort by ascending latency of config.js line 334. -/
def sortByLatency (l : List LiveConn) : List LiveConn :=
  l.foldr insertByLatency []

/-- createConnection from config.js lines 306-343 in its auto-select
branch (no operator-supplied rpcUrl override): probe every candidate,
keep the successful probes, sort them by latency and return the first,
or throw when no candidate survived. -/
def createConnection (probes : List ProbeOutcome) : Except String LiveConn :=
  match sortByLatency (validConnections probes) with
  | [] => Except.error "All RPC endpoints failed"
  | fastest :: _ => Except.ok fastest

/-- getFastestConnection from src/create_real_launchlab_token.js lines
198-207: a sequential for-loop over the candidates that returns the url
of the first candidate whose probe does not throw, and only throws after
exhausting the list. -/
def getFastestConnection : List ProbeOutcome → Except String String
  | [] => Except.error "No RPC available"
  | p :: rest =>
      match p.latency with
      | some _ => Except.ok p.url
      | none => getFastestConnection rest

/-- The earliest success of minimal latency, written directly from the
claim text: the successful candidate with minimum measured latency, ties
broken by original candidate order. -/
def firstMinLatency : List LiveConn → Option LiveConn
  | [] => none
  | x :: xs =>
      match firstMinLatency xs with
      | none => some x
      | some m => if m.latency < x.latency then some m else some x

/-- The probe outcomes of the worked example in the claim: candidate A at
50 ms, B at 30 ms, C at 80 ms, and D failing. -/
def exampleProbes : List ProbeOutcome :=
  [{ url := "A", latency := some 50 }, { url := "B", latency := some 30 },
   { url := "C", latency := some 80 }, { url := "D", latency := none }]

/-- The structured result envelope printed as JSON by every script
variant. Fields not inspected by any claim (name, symbol, uri, explorer
urls, timestamps) are constant metadata copies and are omitted. -/
structure Envelope where
  status : String
  message : Option String
  technicalError : Option String
  signature : Option String
  mintAddress : Option String
  poolId : Option String
  initialBuySignature : Option String
  verifiedLockSuffix : Option Bool
deriving DecidableEq

/-- An all-none error envelope with the given user-facing and technical
messages. -/
def errorEnvelope (userMessage technicalMessage : String) : Envelope :=
  { status := "error", message := some userMessage,
    technicalError := some technicalMessage,
    signature := none, mintAddress := none, poolId := none,
    initialBuySignature := none, verifiedLockSuffix := none }

/-- Observable events of a workflow run, in program order: the console
warning and verified log of the suffix check, the getBalance read, the
mint-creation and curve-creation transaction submissions, the confirmed
curve creation, the initial-buy attempt and its caught failure, the
getAccountInfo chain query for the mint identity, and each JSON result
emission. -/
inductive Ev where
  | warnSuffix
  | verifiedSuffixLog
  | balanceQuery
  | submitMint
  | submitCreate
  | createSucceeded
  | buyAttempt
  | buyFailureLog (msg : String)
  | mintChainQuery
  | emit (e : Envelope)
deriving DecidableEq

/-- The envelopes actually printed during a run, in order. -/
def emittedEnvelopes (evs : List Ev) : List Envelope :=
  evs.filterMap (fun e => match e with | Ev.emit x => some x | _ => none)

/-- Substring test used to model the String.prototype.includes calls of
the error-message mapping: a pattern occurs in s exactly when splitting s
on it yields more than one piece. -/
def containsSubstr (s pat : String) : Bool :=
  2 ≤ (s.splitOn pat).length

/-- Error-message mapping from src/create_raydium_token.js lines 318-339.
Apostrophes of the original literals are elided and the interpolated
numeric amounts are not reproduced; no theorem below depends on the text. -/
def rayFriendly (m : String) : String :=
  if containsSubstr m "Attempt to debit an account but found no record of a prior credit" then
    "Creator wallet needs more SOL. Please add at least 0.1 SOL to your wallet and try again."
  else if containsSubstr m "insufficient funds" then
    "Insufficient SOL balance. Please add more SOL to your wallet."
  else if containsSubstr m "Account not found" then
    "Wallet account not found. Please fund your wallet with at least 0.1 SOL."
  else if containsSubstr m "blockhash" then
    "Network congestion. Please try again in a moment."
  else if containsSubstr m "LOCK" then
    "Vanity address generation failed - address does not end with lock."
  else m

/-- Outcome of submitting a transaction through the SDK. -/
inductive ExecOutcome where
  | ok (txId : String)
  | fail (msg : String)
deriving DecidableEq

/-- Environment for createLockToken of src/create_raydium_token.js lines
156-350 (the variant taking a params object): outcomes of each external
interaction, read off in program order. -/
structure RayEnv where
  connectionOk : Bool
  mintAddress : String
  initialBuyAmount : ℚ
  accountFound : Bool
  balanceSOL : ℚ
  mintCreateOk : Bool
  sdkOk : Bool
  createOutcome : ExecOutcome
  poolId : String
  buyOutcome : ExecOutcome
deriving DecidableEq

/-- createLockToken from src/create_raydium_token.js lines 156-350. Every
thrown error reaches the catch at line 314, which prints the mapped error
envelope and rethrows; the function otherwise prints the success response
at line 311 and returns it. The returned value pairs the event trace with
the thrown message or returned envelope. -/
def createLockTokenRay (env : RayEnv) : List Ev × Except String Envelope :=
  if env.connectionOk = false then
    let m := "All RPC endpoints failed"
    ([Ev.emit (errorEnvelope (rayFriendly m) m)], Except.error m)
  else if jsEndsWith (jsToLower env.mintAddress) "lock" = false then
    let m := "CRITICAL ERROR: Generated address " ++ env.mintAddress ++ " does not end with lock"
    ([Ev.emit (errorEnvelope (rayFriendly m) m)], Except.error m)
  else
    let minRequiredSOL : ℚ :=
      if 0 < env.initialBuyAmount then env.initialBuyAmount + 1 / 10 else 1 / 10
    if env.accountFound = false then
      let m := "Account " ++ env.mintAddress ++ " not found. Please fund this wallet"
      ([Ev.balanceQuery, Ev.emit (errorEnvelope (rayFriendly m) m)], Except.error m)
    else if env.balanceSOL < minRequiredSOL then
      let m := "Insufficient balance. Required and current amounts elided"
      ([Ev.balanceQuery, Ev.emit (errorEnvelope (rayFriendly m) m)], Except.error m)
    else if env.mintCreateOk = false then
      let m := "mint creation failed"
      ([Ev.balanceQuery, Ev.submitMint, Ev.emit (errorEnvelope (rayFriendly m) m)],
       Except.error m)
    else if env.sdkOk = false then
      let m := "Failed to initialize Raydium SDK"
      ([Ev.balanceQuery, Ev.submitMint, Ev.emit (errorEnvelope (rayFriendly m) m)],
       Except.error m)
    else
      match env.createOutcome with
      | ExecOutcome.fail m =>
          ([Ev.balanceQuery, Ev.submitMint, Ev.submitCreate,
            Ev.emit (errorEnvelope (rayFriendly m) m)], Except.error m)
      | ExecOutcome.ok txId =>
          let buyStep : List Ev × Option String :=
            if 0 < env.initialBuyAmount then
              match env.buyOutcome with
              | ExecOutcome.ok sig => ([Ev.buyAttempt], some sig)
              | ExecOutcome.fail bm => ([Ev.buyAttempt, Ev.buyFailureLog bm], none)
            else ([], none)
          let response : Envelope :=
            { status := "success", message := none, technicalError := none,
              signature := some txId, mintAddress := some env.mintAddress,
              poolId := some env.poolId, initialBuySignature := buyStep.2,
              verifiedLockSuffix := some (jsEndsWith (jsToLower env.mintAddress) "lock") }
          ([Ev.balanceQuery, Ev.submitMint, Ev.submitCreate, Ev.createSucceeded]
             ++ buyStep.1 ++ [Ev.emit response],
           Except.ok response)

/-- Environment for main of src/create_raydium_token.js lines 353-397:
whether the parameter file exists, plus the inner environment used once
createLockToken is reached. -/
structure MainEnv where
  paramsFileExists : Bool
  ray : RayEnv
deriving DecidableEq

/-- main from src/create_raydium_token.js lines 353-397: it checks the
parameter file and the lock suffix itself, then calls createLockToken; on
the success path it prints the returned result a second time (line 384),
and when createLockToken rethrows it prints a second error envelope built
from the raw message only (lines 389-394). -/
def mainRay (menv : MainEnv) : List Ev :=
  if menv.paramsFileExists = false then
    [Ev.emit { status := "error", message := some "Parameters file not found",
               technicalError := none, signature := none, mintAddress := none,
               poolId := none, initialBuySignature := none, verifiedLockSuffix := none }]
  else if jsEndsWith (jsToLower menv.ray.mintAddress) "lock" = false then
    [Ev.emit { status := "error",
               message := some "FATAL: Provided keypair does not generate LOCK address",
               technicalError := none, signature := none, mintAddress := none,
               poolId := none, initialBuySignature := none, verifiedLockSuffix := none }]
  else
    match createLockTokenRay menv.ray with
    | (evs, Except.ok r) => evs ++ [Ev.emit r]
    | (evs, Except.error m) =>
        evs ++ [Ev.emit { status := "error", message := some m,
                          technicalError := none, signature := none, mintAddress := none,
                          poolId := none, initialBuySignature := none,
                          verifiedLockSuffix := none }]

/-- The suffix check of src/create_launchlab_token.js lines 57-60:
hasLockSuffix is the truthiness of the disjunction of the two uppercased
endsWith tests with the expectedLockSuffix input field. -/
def labHasLockSuffix (mintAddress : String) (expectedLockSuffix : Bool) : Bool :=
  jsEndsWith (jsToUpper mintAddress) "LOCK" || jsEndsWith (jsToUpper mintAddress) "LCK"
    || expectedLockSuffix

/-- Environment for createLockToken of src/create_launchlab_token.js
lines 26-233: the parameter-file state, the decoded mint address, the
truthiness of the expectedLockSuffix input field, and the outcomes of
the external calls a run can actually reach. No later outcomes are
needed: the identifier extInfo read at line 137 is declared nowhere in
that module, and in JavaScript the optional-chained extInfo?.poolId on
an undeclared identifier throws ReferenceError, so the initial-buy step,
the final verification and the success envelope of lines 144-206 are
unreachable. -/
structure LabEnv where
  paramsFileExists : Bool
  mintAddress : String
  expectedLockSuffix : Bool
  balanceSOL : ℚ
  createOk : Bool
deriving DecidableEq

/-- createLockToken from src/create_launchlab_token.js lines 26-233. A
failing suffix check only produces a console warning (line 63) and the
run continues into the balance check and the launchpad submission. After
a successful create and execute (lines 112-136), line 137 reads the
undeclared identifier extInfo and throws ReferenceError, so every run
that gets past the execute lands in the catch at line 207, which prints
a single error envelope; the success envelope of lines 184-201 (the only
place a verifiedLockSuffix field would be emitted) is dead code, as are
the initial-buy step of lines 144-171 and the getAccountInfo final
verification of line 175. -/
def labCreateLockToken (env : LabEnv) : List Ev × Envelope :=
  if env.paramsFileExists = false then
    let e := errorEnvelope "Parameters file not found" "Parameters file not found"
    ([Ev.emit e], e)
  else
    let suffixEv :=
      if labHasLockSuffix env.mintAddress env.expectedLockSuffix then
        Ev.verifiedSuffixLog
      else Ev.warnSuffix
    if env.balanceSOL < 1 / 20 then
      let e := errorEnvelope "Insufficient SOL balance for LaunchLab creation."
        "Insufficient balance"
      ([suffixEv, Ev.balanceQuery, Ev.emit e], e)
    else if env.createOk = false then
      let e := errorEnvelope "launchpad create failed" "launchpad create failed"
      ([suffixEv, Ev.balanceQuery, Ev.submitCreate, Ev.emit e], e)
    else
      let e := errorEnvelope "extInfo is not defined" "extInfo is not defined"
      ([suffixEv, Ev.balanceQuery, Ev.submitCreate, Ev.createSucceeded, Ev.emit e], e)

/-- Outcome of the initializeV2 execute call of
src/create_real_launchlab_token.js line 154: confirmed success, a
confirmation timeout, or a rejection before inclusion. -/
inductive CreateOutcome where
  | ok (txId : String)
  | timeout
  | rejected (msg : String)
deriving DecidableEq

/-- Environment for createTradableLockToken of
src/create_real_launchlab_token.js lines 60-181. poolExistsOnChain is the
actual chain state for the mint after submission; the script never reads
it, which is what the confirmation-timeout claim is about. -/
structure RealEnv where
  paramsFileExists : Bool
  mintAddress : String
  initialBuyAmount : ℚ
  balanceSOL : ℚ
  execOutcome : CreateOutcome
  poolExistsOnChain : Bool
deriving DecidableEq

/-- createTradableLockToken from src/create_real_launchlab_token.js lines
60-181: parameter file check, then validateLockAddressFixed as a hard
abort (lines 89-92) before the connection, the getBalance read (line 99)
and the submission; any thrown error, a confirmation timeout included,
reaches the catch at line 172 which prints one error envelope and exits.
No chain state is ever re-queried for the mint identity. -/
def createTradableLockToken (env : RealEnv) : List Ev × Envelope :=
  if env.paramsFileExists = false then
    let e := errorEnvelope "Parameters file not found" "Parameters file not found"
    ([Ev.emit e], e)
  else if validateLockAddressFixed (JsVal.jsStr env.mintAddress) = false then
    let e := errorEnvelope ("Invalid LOCK address: " ++ env.mintAddress)
      ("Invalid LOCK address: " ++ env.mintAddress)
    ([Ev.emit e], e)
  else if env.balanceSOL < 1 / 100 + env.initialBuyAmount then
    let e := errorEnvelope "Insufficient balance: need more SOL"
      "Insufficient balance: need more SOL"
    ([Ev.balanceQuery, Ev.emit e], e)
  else
    match env.execOutcome with
    | CreateOutcome.ok txId =>
        let result : Envelope :=
          { status := "success", message := none, technicalError := none,
            signature := some txId, mintAddress := some env.mintAddress,
            poolId := some "poolFromResult", initialBuySignature := none,
            verifiedLockSuffix := none }
        ([Ev.balanceQuery, Ev.submitCreate, Ev.createSucceeded, Ev.emit result], result)
    | CreateOutcome.timeout =>
        let e := errorEnvelope "Transaction was not confirmed" "Transaction was not confirmed"
        ([Ev.balanceQuery, Ev.submitCreate, Ev.emit e], e)
    | CreateOutcome.rejected m =>
        let e := errorEnvelope m m
        ([Ev.balanceQuery, Ev.submitCreate, Ev.emit e], e)

/-- Claim C2: for every candidate address string, the address validator
returns valid if and only if the length is between 32 and 44 inclusive
and the uppercased string ends with LOCK or LCK; it is pure and
deterministic, and the validateLockAddressFixed variant computes the same
predicate. -/
theorem c2_validator_spec (s : String) :
    (validateLockAddress (JsVal.jsStr s) = true ↔
      (32 ≤ s.length ∧ s.length ≤ 44 ∧
        (jsEndsWith (jsToUpper s) "LOCK" = true ∨ jsEndsWith (jsToUpper s) "LCK" = true)))
    ∧ validateLockAddress (JsVal.jsStr s) = validateLockAddress (JsVal.jsStr s)
    ∧ validateLockAddressFixed (JsVal.jsStr s) = validateLockAddress (JsVal.jsStr s) := by
  refine ⟨?_, rfl, ?_⟩
  · simp only [validateLockAddress]
    split_ifs with h0 h1 h2 h3
    · constructor
      · intro h; exact absurd h (by simp)
      · rintro ⟨h, -, -⟩
        subst h0
        exact absurd h (by decide)
    · constructor
      · intro h; exact absurd h (by simp)
      · rintro ⟨ha, hb, -⟩
        omega
    · exact iff_of_true rfl ⟨by omega, by omega, Or.inl h2⟩
    · exact iff_of_true rfl ⟨by omega, by omega, Or.inr h3⟩
    · constructor
      · intro h; exact absurd h (by simp)
      · rintro ⟨-, -, h | h⟩
        · exact absurd h h2
        · exact absurd h h3
  · simp only [validateLockAddress, validateLockAddressFixed]
    split_ifs with h0 h1 h2 h3 h4 h5 <;>
      simp_all [Bool.or_eq_true]

/-- Witness for claim C2: the validator characterization applied to the
44-character address of the source test list, which ends in LocK. -/
theorem c2_validator_spec_witness :
    validateLockAddress (JsVal.jsStr "6mG12mRJhHbEiuRBUDvqSDCA4hswABGkFrwS6hcBLocK") = true := by
  exact (c2_validator_spec "6mG12mRJhHbEiuRBUDvqSDCA4hswABGkFrwS6hcBLocK").1.mpr
    ⟨by decide, by decide, Or.inl (by decide)⟩

/-- Claim C10: the address validators are total over null, undefined and
non-string inputs and over strings of any length, returning false rather
than throwing, and the type and length guards are evaluated before any
suffix inspection (a short string is rejected whatever its suffix). -/
theorem c10_total_guards (i : JsVal) (s : String) :
    ((∀ t : String, i ≠ JsVal.jsStr t) → validateLockAddress i = false)
    ∧ (s.length < 32 → validateLockAddress (JsVal.jsStr s) = false)
    ∧ (44 < s.length → validateLockAddress (JsVal.jsStr s) = false)
    ∧ validateLockAddress JsVal.jsNull = false
    ∧ validateLockAddress JsVal.jsUndefined = false
    ∧ validateLockAddressFixed JsVal.jsNull = false
    ∧ validateLockAddressFixed JsVal.jsUndefined = false
    ∧ (s.length < 32 → validateLockAddressFixed (JsVal.jsStr s) = false)
    ∧ (44 < s.length → validateLockAddressFixed (JsVal.jsStr s) = false) := by
  refine ⟨?_, ?_, ?_, rfl, rfl, rfl, rfl, ?_, ?_⟩
  · intro h
    cases i with
    | jsStr t => exact absurd rfl (h t)
    | jsNull => rfl
    | jsUndefined => rfl
    | jsBool b => rfl
    | jsNum q => rfl
  all_goals
    intro h
    first
      | (simp only [validateLockAddress]; split_ifs with h0 h1 h2 h3 <;> first | rfl | omega)
      | (simp only [validateLockAddressFixed]; split_ifs with h0 <;> first | rfl | omega)

/-- Witness for claim C10: a ten-character string ending in LCK (from the
source test list) is rejected by the length guard before its suffix is
inspected, and null is rejected by the type guard. -/
theorem c10_total_guards_witness :
    validateLockAddress (JsVal.jsStr "TestingLCK") = false
    ∧ validateLockAddress JsVal.jsNull = false := by
  have h := c10_total_guards JsVal.jsNull "TestingLCK"
  exact ⟨h.2.1 (by decide), h.2.2.2.1⟩

/-- Claim C3: for launch parameters with positive totalSupply and
sellPercentage at most 100, the derived sellAmount is the exact integer
floor of totalSupply * sellPercentage / 100, it never exceeds the total
supply, the 1000000000 / 80 instance yields 800000000, and the derivation
is deterministic. -/
theorem c3_derive_curve (p : LaunchParameters)
    (_hpos : 0 < p.totalSupply) (hle : p.sellPercentage ≤ 100) :
    ((deriveCurve p).sellAmount : ℤ) =
        ⌊((p.totalSupply : ℚ) * (p.sellPercentage : ℚ)) / 100⌋
    ∧ (deriveCurve p).sellAmount ≤ p.totalSupply
    ∧ (deriveCurve { totalSupply := 1000000000, sellPercentage := 80 }).sellAmount
        = 800000000
    ∧ ∀ q : LaunchParameters, q = p → deriveCurve q = deriveCurve p := by
  refine ⟨?_, ?_, by decide, fun q hq => hq ▸ rfl⟩
  · have h1 : (p.totalSupply * p.sellPercentage / 100) * 100
        ≤ p.totalSupply * p.sellPercentage := Nat.div_mul_le_self _ _
    have h2 : p.totalSupply * p.sellPercentage
        < (p.totalSupply * p.sellPercentage / 100 + 1) * 100 :=
      (Nat.div_lt_iff_lt_mul (by norm_num)).mp (Nat.lt_succ_self _)
    rw [eq_comm, Int.floor_eq_iff]
    constructor
    · rw [le_div_iff₀ (by norm_num : (0 : ℚ) < 100)]
      show ((deriveCurve p).sellAmount : ℚ) * 100 ≤ _
      push_cast [deriveCurve]
      exact_mod_cast h1
    · rw [div_lt_iff₀ (by norm_num : (0 : ℚ) < 100)]
      show _ < (((deriveCurve p).sellAmount : ℚ) + 1) * 100
      push_cast [deriveCurve]
      exact_mod_cast h2
  · show p.totalSupply * p.sellPercentage / 100 ≤ p.totalSupply
    calc p.totalSupply * p.sellPercentage / 100
        ≤ p.totalSupply * 100 / 100 :=
          Nat.div_le_div_right (Nat.mul_le_mul_left _ hle)
      _ = p.totalSupply := by omega

/-- Witness for claim C3: the curve derivation at the documented instance
with totalSupply 1000000000 and sellPercentage 80. -/
theorem c3_derive_curve_witness :
    (deriveCurve { totalSupply := 1000000000, sellPercentage := 80 }).sellAmount
      = 800000000 := by
  exact (c3_derive_curve { totalSupply := 1000000000, sellPercentage := 80 }
    (by norm_num) (by norm_num)).2.2.1

/-- Counterexample for claim C4: in the balance guard of
src/create_real_launchlab_token.js two failing runs with the same
required amount but different current balances throw identical errors, so
the signalled error cannot carry the current value, contradicting the
claim that the guard signals an error carrying both the required and the
current value. -/
theorem c4_counterexample :
    realBalanceGuard 0 0 = Except.error { required := 1 / 100 }
    ∧ realBalanceGuard 0 (1 / 1000) = Except.error { required := 1 / 100 }
    ∧ (0 : ℚ) ≠ 1 / 1000 := by
  refine ⟨?_, ?_, by norm_num⟩ <;> norm_num [realBalanceGuard]

/-- Claim C4 as amended: both balance guards compute required as the base
creation cost plus initialBuyAmount and pass exactly when the current
balance is at least required, with the boundary inclusive (equality
passes, any amount strictly below fails); on failure the
create_raydium_token guard throws an error carrying both required and
current, while the create_real_launchlab_token guard throws an error
carrying only the required value. -/
theorem c4_balance_guards (initialBuyAmount balanceSOL : ℚ) :
    (raydiumBalanceGuard initialBuyAmount balanceSOL = Except.ok () ↔
      initialBuyAmount + 5 / 1000 ≤ balanceSOL)
    ∧ (balanceSOL < initialBuyAmount + 5 / 1000 →
        raydiumBalanceGuard initialBuyAmount balanceSOL =
          Except.error { required := initialBuyAmount + 5 / 1000, current := balanceSOL })
    ∧ (realBalanceGuard initialBuyAmount balanceSOL = Except.ok () ↔
        1 / 100 + initialBuyAmount ≤ balanceSOL)
    ∧ (balanceSOL < 1 / 100 + initialBuyAmount →
        realBalanceGuard initialBuyAmount balanceSOL =
          Except.error { required := 1 / 100 + initialBuyAmount })
    ∧ raydiumBalanceGuard initialBuyAmount (initialBuyAmount + 5 / 1000) = Except.ok ()
    ∧ raydiumBalanceGuard initialBuyAmount
        (initialBuyAmount + 5 / 1000 - 1 / 1000000000) =
        Except.error { required := initialBuyAmount + 5 / 1000,
                       current := initialBuyAmount + 5 / 1000 - 1 / 1000000000 } := by
  simp only [raydiumBalanceGuard, realBalanceGuard]
  refine ⟨?_, ?_, ?_, ?_, ?_, ?_⟩
  · split_ifs with h
    · exact iff_of_false (by simp) (not_le.mpr h)
    · exact iff_of_true rfl (le_of_not_lt h)
  · split_ifs with h
    · intro _; rfl
    · intro hlt; exact absurd hlt h
  · split_ifs with h
    · exact iff_of_false (by simp) (not_le.mpr h)
    · exact iff_of_true rfl (le_of_not_lt h)
  · split_ifs with h
    · intro _; rfl
    · intro hlt; exact absurd hlt h
  · rw [if_neg (lt_irrefl _)]
  · rw [if_pos (by linarith)]

/-- Witness for claim C4: the amended guard characterization applied at a
zero initial buy and an empty wallet. -/
theorem c4_balance_guards_witness :
    raydiumBalanceGuard 0 0 =
      Except.error { required := 0 + 5 / 1000, current := 0 } := by
  exact (c4_balance_guards 0 0).2.1 (by norm_num)

/-- The earliest minimum is none exactly on the empty list. -/
theorem firstMinLatency_eq_none {l : List LiveConn} :
    firstMinLatency l = none ↔ l = [] := by
  cases l with
  | nil => simp [firstMinLatency]
  | cons x xs =>
      simp only [firstMinLatency]
      cases firstMinLatency xs with
      | none => simp
      | some m => dsimp only; split_ifs <;> simp

/-- The earliest minimum is an element of the list. -/
theorem firstMinLatency_mem (l : List LiveConn) :
    ∀ c, firstMinLatency l = some c → c ∈ l := by
  induction l with
  | nil => intro c h; cases h
  | cons x xs ih =>
      intro c h
      simp only [firstMinLatency] at h
      rcases hm : firstMinLatency xs with _ | m
      · rw [hm] at h
        injection h with h
        exact h ▸ List.mem_cons_self x xs
      · rw [hm] at h
        dsimp only at h
        split_ifs at h with hlt
        · injection h with h
          exact List.mem_cons_of_mem x (h ▸ ih m hm)
        · injection h with h
          exact h ▸ List.mem_cons_self x xs

/-- The earliest minimum has latency at most that of every list element. -/
theorem firstMinLatency_le (l : List LiveConn) :
    ∀ c, firstMinLatency l = some c → ∀ d ∈ l, c.latency ≤ d.latency := by
  induction l with
  | nil => intro c h; cases h
  | cons x xs ih =>
      intro c h d hd
      simp only [firstMinLatency] at h
      rcases hm : firstMinLatency xs with _ | m
      · rw [hm] at h
        injection h with h
        have hxs : xs = [] := firstMinLatency_eq_none.mp hm
        subst hxs
        rcases List.mem_cons.mp hd with rfl | hd'
        · exact h ▸ le_refl _
        · cases hd'
      · rw [hm] at h
        dsimp only at h
        split_ifs at h with hlt
        · injection h with h
          subst h
          rcases List.mem_cons.mp hd with rfl | hd'
          · exact le_of_lt hlt
          · exact ih m hm d hd'
        · injection h with h
          subst h
          rcases List.mem_cons.mp hd with rfl | hd'
          · exact le_refl _
          · exact le_trans (not_lt.mp hlt) (ih m hm d hd')

/-- The head of the stable latency sort is the earliest success of
minimal latency. -/
theorem head_sortByLatency (l : List LiveConn) :
    (sortByLatency l).head? = firstMinLatency l := by
  induction l with
  | nil => rfl
  | cons x xs ih =>
      have hs : sortByLatency (x :: xs) = insertByLatency x (sortByLatency xs) := rfl
      rw [hs]
      rcases hxs : sortByLatency xs with _ | ⟨y, ys⟩
      · rw [hxs] at ih
        simp only [List.head?] at ih
        simp only [insertByLatency, firstMinLatency, ← ih]
        rfl
      · rw [hxs] at ih
        simp only [List.head?] at ih
        simp only [insertByLatency, firstMinLatency, ← ih]
        split_ifs <;> rfl

/-- The stable latency sort is empty exactly on the empty list. -/
theorem sortByLatency_eq_nil {l : List LiveConn} :
    sortByLatency l = [] ↔ l = [] := by
  constructor
  · intro h
    have hh := head_sortByLatency l
    rw [h] at hh
    exact firstMinLatency_eq_none.mp hh.symm
  · rintro rfl; rfl

/-- The sequential fallback errors exactly when every probe failed. -/
theorem getFastestConnection_err (probes : List ProbeOutcome) :
    getFastestConnection probes = Except.error "No RPC available" ↔
      validConnections probes = [] := by
  induction probes with
  | nil => simp [getFastestConnection, validConnections]
  | cons p rest ih =>
      rcases hl : p.latency with _ | l
      · simpa [getFastestConnection, validConnections, List.filterMap_cons, hl]
          using ih
      · simp [getFastestConnection, validConnections, List.filterMap_cons, hl]

/-- The sequential fallback returns the url of the first candidate whose
probe succeeded: every earlier candidate failed its probe. -/
theorem getFastestConnection_first (probes : List ProbeOutcome) :
    ∀ u, getFastestConnection probes = Except.ok u →
      ∃ pre p post, probes = pre ++ p :: post ∧ p.url = u ∧ p.latency ≠ none ∧
        ∀ q ∈ pre, q.latency = none := by
  induction probes with
  | nil => intro u h; cases h
  | cons p rest ih =>
      intro u h
      simp only [getFastestConnection] at h
      rcases hl : p.latency with _ | l
      · rw [hl] at h
        dsimp only at h
        obtain ⟨pre, p', post, hsplit, hurl, hsucc, hpre⟩ := ih u h
        refine ⟨p :: pre, p', post, by rw [hsplit]; rfl, hurl, hsucc, ?_⟩
        intro q hq
        rcases List.mem_cons.mp hq with rfl | hq'
        · exact hl
        · exact hpre q hq'
      · rw [hl] at h
        dsimp only at h
        injection h with h
        exact ⟨[], p, rest, rfl, h, by rw [hl]; exact Option.noConfusion, fun q hq => absurd hq (List.not_mem_nil q)⟩

/-- Counterexample for claim C5: on the claimed example with latencies
A 50 ms, B 30 ms, C 80 ms and D failing, the getFastestConnection
selector of src/create_real_launchlab_token.js returns A, the first
candidate whose probe succeeds, not the minimum-latency candidate B that
the claim requires (which only the config.js createConnection selector
returns). -/
theorem c5_counterexample :
    getFastestConnection exampleProbes = Except.ok "A"
    ∧ createConnection exampleProbes = Except.ok { url := "B", latency := 30 }
    ∧ "A" ≠ "B" := by
  refine ⟨rfl, rfl, by decide⟩

/-- Claim C5 as amended: the concurrent selector createConnection of
config.js (no override) keeps exactly the successful probes, fails with
its exhaustion error precisely when every probe failed, and otherwise
returns a successful candidate of minimal measured latency, namely the
earliest such candidate in the original order; the getFastestConnection
selector of src/create_real_launchlab_token.js instead probes
sequentially and returns the first candidate whose probe succeeds,
failing precisely when every probe failed. -/
theorem c5_rpc_selectors (probes : List ProbeOutcome) :
    (createConnection probes = Except.error "All RPC endpoints failed" ↔
      validConnections probes = [])
    ∧ (∀ c, createConnection probes = Except.ok c →
        firstMinLatency (validConnections probes) = some c)
    ∧ (∀ c, createConnection probes = Except.ok c →
        c ∈ validConnections probes ∧
          ∀ d ∈ validConnections probes, c.latency ≤ d.latency)
    ∧ (getFastestConnection probes = Except.error "No RPC available" ↔
        validConnections probes = [])
    ∧ (∀ u, getFastestConnection probes = Except.ok u →
        ∃ pre p post, probes = pre ++ p :: post ∧ p.url = u ∧ p.latency ≠ none ∧
          ∀ q ∈ pre, q.latency = none) := by
  have key : ∀ c, createConnection probes = Except.ok c →
      firstMinLatency (validConnections probes) = some c := by
    intro c h
    unfold createConnection at h
    rcases hs : sortByLatency (validConnections probes) with _ | ⟨f, rest⟩
    · rw [hs] at h
      exact absurd h (by simp)
    · rw [hs] at h
      dsimp only at h
      injection h with h
      have hh := head_sortByLatency (validConnections probes)
      rw [hs] at hh
      simp only [List.head?] at hh
      rw [← hh, h]
  refine ⟨?_, key, ?_, getFastestConnection_err probes,
    getFastestConnection_first probes⟩
  · unfold createConnection
    rcases hs : sortByLatency (validConnections probes) with _ | ⟨f, rest⟩
    · exact iff_of_true rfl (sortByLatency_eq_nil.mp hs)
    · dsimp only
      refine iff_of_false (by simp) (fun h => ?_)
      rw [h] at hs
      exact absurd hs (by simp [sortByLatency])
  · intro c h
    have hk := key c h
    exact ⟨firstMinLatency_mem _ c hk, firstMinLatency_le _ c hk⟩

/-- Witness for claim C5: on the worked example the concurrent selector
returns candidate B at 30 ms, the earliest success of minimal latency. -/
theorem c5_rpc_selectors_witness :
    firstMinLatency (validConnections exampleProbes) =
      some { url := "B", latency := 30 } := by
  exact (c5_rpc_selectors exampleProbes).2.1 { url := "B", latency := 30 } rfl

/-- Every run of the inner createLockToken prints exactly one envelope:
one error envelope from the catch, or the success response at line 311. -/
theorem ray_emits_once (env : RayEnv) :
    (emittedEnvelopes (createLockTokenRay env).1).length = 1 := by
  obtain ⟨conn, addr, ib, acct, bal, mintOk, sdk, co, pid, bo⟩ := env
  rcases co with txId | cm <;> rcases bo with sig | bm <;>
    simp only [createLockTokenRay] <;>
    split_ifs <;>
    simp [emittedEnvelopes, List.filterMap_cons, List.filterMap_append]

/-- A concrete fully successful invocation of main in
src/create_raydium_token.js: the parameter file exists, the mint address
ends in lock, every external call succeeds, and no initial buy is
requested. -/
def c6Env : MainEnv :=
  { paramsFileExists := true,
    ray := { connectionOk := true,
             mintAddress := "3b5C4V7vJqz8SFpPeTEcCKMqXjtEALzy8riPmQ4CLOCk",
             initialBuyAmount := 0, accountFound := true, balanceSOL := 10,
             mintCreateOk := true, sdkOk := true,
             createOutcome := ExecOutcome.ok "tx1", poolId := "pool1",
             buyOutcome := ExecOutcome.ok "buy1" } }

/-- Counterexample for claim C6: a successful invocation of main emits
the result envelope twice, once inside createLockToken at line 311 and
once again in main at line 384, so the reporter does not emit exactly one
result object per invocation. -/
theorem c6_counterexample :
    (emittedEnvelopes (mainRay c6Env)).length = 2 := by
  have h1 : jsEndsWith (jsToLower "3b5C4V7vJqz8SFpPeTEcCKMqXjtEALzy8riPmQ4CLOCk") "lock"
      = true := by decide
  norm_num [mainRay, c6Env, createLockTokenRay, emittedEnvelopes, h1]
  rfl

/-- Claim C6 as amended: every invocation of main emits at least one
result envelope and its final action is an envelope emission, but an
invocation that reaches createLockToken emits the envelope twice (the
inner print plus the print in main, on the success path and on inner
failure paths alike), so the per-invocation count is one or two rather
than always exactly one. -/
theorem c6_reporter_emissions (menv : MainEnv) :
    1 ≤ (emittedEnvelopes (mainRay menv)).length
    ∧ (emittedEnvelopes (mainRay menv)).length ≤ 2
    ∧ ∃ e, (mainRay menv).getLast? = some (Ev.emit e) := by
  unfold mainRay
  split_ifs with h1 h2
  · exact ⟨by simp [emittedEnvelopes], by simp [emittedEnvelopes], ⟨_, rfl⟩⟩
  · exact ⟨by simp [emittedEnvelopes], by simp [emittedEnvelopes], ⟨_, rfl⟩⟩
  · rcases hc : createLockTokenRay menv.ray with ⟨evs, res⟩
    have hone : (emittedEnvelopes evs).length = 1 := by
      have hr := ray_emits_once menv.ray
      rw [hc] at hr
      exact hr
    rcases res with r | m <;>
      dsimp only <;>
      refine ⟨?_, ?_, ⟨_, List.getLast?_concat _⟩⟩ <;>
      simp [emittedEnvelopes, List.filterMap_append] at hone ⊢ <;>
      omega

/-- Status of the value produced by the inner createLockToken: the status
field of the returned envelope, or none when the run threw. -/
def statusOf : Except String Envelope → Option String
  | Except.ok r => some r.status
  | Except.error _ => none

/-- Initial-buy signature of the value produced by the inner
createLockToken, or none when the run threw. -/
def buySigOf : Except String Envelope → Option (Option String)
  | Except.ok r => some r.initialBuySignature
  | Except.error _ => none

/-- Claim C7: the initial-buy step runs exactly when initialBuyAmount is
positive and the creation submission succeeded, and a caught buy failure
leaves the returned envelope with status success, a null
initialBuySignature, and the buy error recorded separately in the log
trace. -/
theorem c7_buy_step (env : RayEnv) :
    (Ev.buyAttempt ∈ (createLockTokenRay env).1 ↔
      0 < env.initialBuyAmount ∧ Ev.createSucceeded ∈ (createLockTokenRay env).1)
    ∧ (∀ m, Ev.buyFailureLog m ∈ (createLockTokenRay env).1 →
        statusOf (createLockTokenRay env).2 = some "success"
        ∧ buySigOf (createLockTokenRay env).2 = some none
        ∧ env.buyOutcome = ExecOutcome.fail m) := by
  obtain ⟨conn, addr, ib, acct, bal, mintOk, sdk, co, pid, bo⟩ := env
  rcases co with txId | cm <;> rcases bo with sig | bm <;>
    simp only [createLockTokenRay] <;>
    split_ifs with h1 h2 h3 h4 h5 <;>
    simp_all [statusOf, buySigOf]

/-- A concrete run of the inner createLockToken in which creation
succeeds, an initial buy of half a SOL is requested, and the buy throws a
network error that the catch at line 284 swallows. -/
def c7Env : RayEnv :=
  { connectionOk := true,
    mintAddress := "3b5C4V7vJqz8SFpPeTEcCKMqXjtEALzy8riPmQ4CLOCk",
    initialBuyAmount := 1 / 2, accountFound := true, balanceSOL := 10,
    mintCreateOk := true, sdkOk := true, createOutcome := ExecOutcome.ok "tx1",
    poolId := "pool1", buyOutcome := ExecOutcome.fail "buy network failure" }

/-- Witness for claim C7: on the concrete failing-buy run the returned
envelope still has status success and a null initial-buy signature. -/
theorem c7_buy_step_witness :
    statusOf (createLockTokenRay c7Env).2 = some "success"
    ∧ buySigOf (createLockTokenRay c7Env).2 = some none := by
  have hmem : Ev.buyFailureLog "buy network failure" ∈ (createLockTokenRay c7Env).1 := by
    have h1 : jsEndsWith (jsToLower "3b5C4V7vJqz8SFpPeTEcCKMqXjtEALzy8riPmQ4CLOCk") "lock"
        = true := by decide
    norm_num [createLockTokenRay, c7Env, h1]
  have h := (c7_buy_step c7Env).2 "buy network failure" hmem
  exact ⟨h.1, h.2.1⟩

/-- A concrete run of createTradableLockToken in which the creation
transaction is submitted, confirmation times out, and the pool does in
fact exist on chain afterwards. -/
def c8Env : RealEnv :=
  { paramsFileExists := true,
    mintAddress := "6mG12mRJhHbEiuRBUDvqSDCA4hswABGkFrwS6hcBLocK",
    initialBuyAmount := 0, balanceSOL := 10,
    execOutcome := CreateOutcome.timeout, poolExistsOnChain := true }

/-- Counterexample for claim C8: when confirmation times out and the pool
does exist on chain, the workflow still reports an error envelope and
performs zero chain re-queries for the mint identity, instead of the one
re-query and the reclassification to success that the claim requires. -/
theorem c8_counterexample :
    (createTradableLockToken c8Env).2.status = "error"
    ∧ (createTradableLockToken c8Env).1.count Ev.mintChainQuery = 0
    ∧ c8Env.poolExistsOnChain = true := by
  have hv : validateLockAddressFixed
      (JsVal.jsStr "6mG12mRJhHbEiuRBUDvqSDCA4hswABGkFrwS6hcBLocK") = true := by decide
  norm_num [createTradableLockToken, c8Env, hv]
  exact ⟨rfl, rfl⟩

/-- Claim C8 as amended: when the creation submission of
createTradableLockToken times out, the workflow reports the timeout as an
ordinary error envelope and performs no chain re-query at all for the
mint identity; the outcome is never reclassified as success. -/
theorem c8_timeout_no_recheck (env : RealEnv)
    (hf : env.paramsFileExists = true)
    (hv : validateLockAddressFixed (JsVal.jsStr env.mintAddress) = true)
    (hb : 1 / 100 + env.initialBuyAmount ≤ env.balanceSOL)
    (ht : env.execOutcome = CreateOutcome.timeout) :
    (createTradableLockToken env).2.status = "error"
    ∧ (createTradableLockToken env).1.count Ev.mintChainQuery = 0 := by
  obtain ⟨pf, addr, ib, bal, eo, pe⟩ := env
  simp only at hf hv hb ht
  subst hf
  subst ht
  simp only [createTradableLockToken]
  rw [if_neg (by simp), if_neg (by simp [hv]), if_neg (not_lt.mpr hb)]
  exact ⟨rfl, by rfl⟩

/-- Witness for claim C8: the amended timeout behavior applied to the
concrete timed-out run. -/
theorem c8_timeout_no_recheck_witness :
    (createTradableLockToken c8Env).2.status = "error"
    ∧ (createTradableLockToken c8Env).1.count Ev.mintChainQuery = 0 := by
  exact c8_timeout_no_recheck c8Env rfl (by decide) (by norm_num [c8Env]) rfl

/-- A concrete run of createLockToken in src/create_launchlab_token.js
whose mint address (36 characters, suffix ABCDE) fails the address
validator, with expectedLockSuffix absent, a funded wallet and a
succeeding creation call. -/
def c1Env : LabEnv :=
  { paramsFileExists := true,
    mintAddress := "1111111111111111111111111111111ABCDE",
    expectedLockSuffix := false, balanceSOL := 1, createOk := true }

/-- Claim C1 at the failing input: the mint address fails the
AddressValidator predicate, yet createLockToken of
src/create_launchlab_token.js only logs the warning of line 63 and then
proceeds to the balance check and to the funds-spending launchpad
submission, instead of hard-aborting before any funds-spending call. -/
theorem c1_warned_yet_submitted :
    validateLockAddressFixed (JsVal.jsStr c1Env.mintAddress) = false
    ∧ validateLockAddress (JsVal.jsStr c1Env.mintAddress) = false
    ∧ Ev.warnSuffix ∈ (labCreateLockToken c1Env).1
    ∧ Ev.balanceQuery ∈ (labCreateLockToken c1Env).1
    ∧ Ev.submitCreate ∈ (labCreateLockToken c1Env).1 := by
  have hs : labHasLockSuffix "1111111111111111111111111111111ABCDE" false = false := by
    decide
  refine ⟨by decide, by decide, ?_, ?_, ?_⟩ <;>
    norm_num [labCreateLockToken, c1Env, hs]

/-- A concrete run of createLockToken in src/create_launchlab_token.js
whose mint address does not end in LOCK or LCK in any casing, but whose
expectedLockSuffix input field is set, with a funded wallet and a
succeeding creation call. -/
def c9Env : LabEnv :=
  { paramsFileExists := true,
    mintAddress := "1111111111111111111111111111111ABCDE",
    expectedLockSuffix := true, balanceSOL := 1, createOk := true }

/-- Counterexample for claim C9: at a concrete input whose mint address
has neither suffix but whose expectedLockSuffix field is truthy, the
suffix check is treated as passed (the verified branch is logged, not
the warning), yet the emitted result is the error envelope of the catch,
with status error and no verifiedLockSuffix field at all: the success
envelope of lines 184-201, the only emission that carries a
verifiedLockSuffix field, lies beyond the unconditional ReferenceError
of line 137 and is never reached, so no emitted result has a truthy
verifiedLockSuffix. -/
theorem c9_counterexample :
    jsEndsWith (jsToUpper c9Env.mintAddress) "LOCK" = false
    ∧ jsEndsWith (jsToUpper c9Env.mintAddress) "LCK" = false
    ∧ c9Env.expectedLockSuffix = true
    ∧ Ev.verifiedSuffixLog ∈ (labCreateLockToken c9Env).1
    ∧ (labCreateLockToken c9Env).2.status = "error"
    ∧ (labCreateLockToken c9Env).2.verifiedLockSuffix = none := by
  have hs : labHasLockSuffix "1111111111111111111111111111111ABCDE" true = true := by
    decide
  refine ⟨by decide, by decide, rfl, ?_, ?_, ?_⟩ <;>
    norm_num [labCreateLockToken, c9Env, errorEnvelope, hs]

/-- Claim C9 as amended: for an input record whose mint address does not
end case-insensitively with LOCK or LCK but whose expectedLockSuffix
field is truthy, the workflow does treat the suffix check as passed (the
verified branch is logged, never the warning) and the hasLockSuffix
value that line 192 would copy into a result is truthy, forced by the
input field rather than a function of the address alone; but no emitted
result ever carries a verifiedLockSuffix field, because every run
reaching line 137 throws ReferenceError on the undeclared extInfo and
the catch emits an error envelope without that field. -/
theorem c9_forced_check_never_emitted (env : LabEnv)
    (hf : env.paramsFileExists = true)
    (h1 : jsEndsWith (jsToUpper env.mintAddress) "LOCK" = false)
    (h2 : jsEndsWith (jsToUpper env.mintAddress) "LCK" = false)
    (he : env.expectedLockSuffix = true) :
    labHasLockSuffix env.mintAddress env.expectedLockSuffix = true
    ∧ Ev.verifiedSuffixLog ∈ (labCreateLockToken env).1
    ∧ Ev.warnSuffix ∉ (labCreateLockToken env).1
    ∧ (labCreateLockToken env).2.verifiedLockSuffix = none := by
  obtain ⟨pf, addr, exp, bal, cr⟩ := env
  simp only at hf h1 h2 he
  subst hf
  subst he
  have hs : labHasLockSuffix addr true = true := by
    simp [labHasLockSuffix, h1, h2]
  refine ⟨hs, ?_, ?_, ?_⟩ <;>
    simp only [labCreateLockToken] <;>
    split_ifs <;>
    simp_all [errorEnvelope]

/-- Witness for claim C9: the amended statement applied at the concrete
forced-suffix run. -/
theorem c9_forced_check_never_emitted_witness :
    labHasLockSuffix c9Env.mintAddress c9Env.expectedLockSuffix = true
    ∧ (labCreateLockToken c9Env).2.verifiedLockSuffix = none := by
  have h := c9_forced_check_never_emitted c9Env rfl (by decide) (by decide) rfl
  exact ⟨h.1, h.2.2.2⟩
